import Mathlib

/-!
Shallow embedding of the pipeline-construction and frame-lifecycle core of the
VulkanProjects repository, together with theorems settling the specification
claims about it.

Embedded source files:
  * src/AppBase/src/pipeline_builder.h / .cpp   (current PipelineBuilder)
  * src/AppBase/pipeline_builder.h / .cpp       (legacy PipelineBuilder variant)
  * src/05_IndexBuffer/src/main.cpp             (draw_frame, recreate_swapchain)
  * src/AppBase/src/vulkan_app_base.cpp         (recreate_swapchain, destroy_swapchain)

Driver calls (vkCreate*/vkDestroy*) and window-system reads are modelled as
events in an explicit trace; results returned by the driver are inputs.
Shader-file I/O is an external collaborator (spec section 6): add_shader_stage
receives the SPIR-V bytes directly.
-/

namespace VulkanProjects

/-! ## Vulkan enumerations used by the embedded code (vulkan.hpp) -/

/-- vk::ShaderStageFlagBits, restricted to the stage bits the repository uses. -/
inductive ShaderStageKind
  | vertex
  | tessellationControl
  | tessellationEvaluation
  | geometry
  | fragment
  | compute
  deriving DecidableEq, Repr

/-- vk::PrimitiveTopology. -/
inductive PrimitiveTopology
  | pointList
  | lineList
  | lineStrip
  | triangleList
  | triangleStrip
  | triangleFan
  | lineListWithAdjacency
  | lineStripWithAdjacency
  | triangleListWithAdjacency
  | triangleStripWithAdjacency
  | patchList
  deriving DecidableEq, Repr

/-- vk::PolygonMode. -/
inductive PolygonMode
  | fill
  | line
  | point
  deriving DecidableEq, Repr

/-- vk::CullModeFlags (flag combinations actually expressible in the API). -/
inductive CullMode
  | noCull
  | front
  | back
  | frontAndBack
  deriving DecidableEq, Repr

/-- vk::FrontFace. -/
inductive FrontFace
  | counterClockwise
  | clockwise
  deriving DecidableEq, Repr

/-- vk::SampleCountFlagBits. -/
inductive SampleCount
  | e1
  | e2
  | e4
  | e8
  | e16
  | e32
  | e64
  deriving DecidableEq, Repr

/-- vk::CompareOp. -/
inductive CompareOp
  | never
  | less
  | equal
  | lessOrEqual
  | greater
  | notEqual
  | greaterOrEqual
  | always
  deriving DecidableEq, Repr

/-- vk::LogicOp, restricted to the members the repository mentions. -/
inductive LogicOp
  | clear
  | andOp
  | copy
  | noOp
  | xorOp
  | orOp
  | setOp
  deriving DecidableEq, Repr

/-- vk::DynamicState, restricted to the members the repository uses. -/
inductive DynState
  | viewport
  | scissor
  | lineWidth
  | depthBias
  | primitiveTopology
  deriving DecidableEq, Repr

/-- vk::Result values the embedded code distinguishes. -/
inductive VkResult
  | success
  | suboptimalKHR
  | errorOutOfDateKHR
  | errorOther
  deriving DecidableEq, Repr

/-! ## Plain data carried by the pipeline state (vulkan.hpp structs) -/

/-- vk::Viewport (float fields carried verbatim; no claim computes with them). -/
structure Viewport where
  x : Float
  y : Float
  width : Float
  height : Float
  minDepth : Float
  maxDepth : Float

/-- vk::Offset2D. -/
structure Offset2D where
  x : Int
  y : Int
  deriving DecidableEq, Repr

/-- vk::Extent2D. -/
structure Extent2D where
  width : Nat
  height : Nat
  deriving DecidableEq, Repr

/-- vk::Rect2D. -/
structure Rect2D where
  offset : Offset2D
  extent : Extent2D
  deriving DecidableEq, Repr

/-- vk::VertexInputBindingDescription. -/
structure VertexInputBindingDescription where
  binding : Nat
  stride : Nat
  inputRate : Nat
  deriving DecidableEq, Repr

/-- vk::VertexInputAttributeDescription. -/
structure VertexInputAttributeDescription where
  binding : Nat
  location : Nat
  format : Nat
  offset : Nat
  deriving DecidableEq, Repr

/-- vk::StencilOpState (enum-valued fields carried as raw Vulkan values;
value-initialized to all zeroes by `{}` in the source). -/
structure StencilOpState where
  failOp : Nat := 0
  passOp : Nat := 0
  depthFailOp : Nat := 0
  compareOp : Nat := 0
  compareMask : Nat := 0
  writeMask : Nat := 0
  reference : Nat := 0
  deriving DecidableEq, Repr

/-- vk::PipelineColorBlendAttachmentState (factor/op/mask fields carried as
raw Vulkan values; no claim inspects them). -/
structure ColorBlendAttachment where
  blendEnable : Bool := false
  srcColorBlendFactor : Nat := 0
  dstColorBlendFactor : Nat := 0
  colorBlendOp : Nat := 0
  srcAlphaBlendFactor : Nat := 0
  dstAlphaBlendFactor : Nat := 0
  alphaBlendOp : Nat := 0
  colorWriteMask : Nat := 0
  deriving DecidableEq, Repr

/-- vk::PushConstantRange. -/
structure PushConstantRange where
  stageFlags : Nat
  offset : Nat
  size : Nat
  deriving DecidableEq, Repr

/-! ## PipelineBuilder::State (src/AppBase/src/pipeline_builder.h lines 102-213)

Each substructure mirrors the C++ aggregate, including its member
initializers, which are what default-initialize a freshly constructed
builder's state. -/

/-- State::VertexInput. -/
structure VertexInput where
  bindingDescriptions : List VertexInputBindingDescription := []
  attributeDescriptions : List VertexInputAttributeDescription := []

/-- State::InputAssembly. -/
structure InputAssembly where
  topology : PrimitiveTopology := .triangleList
  primitiveRestartEnable : Bool := false

/-- State::TesselationState (spelling as in the source). -/
structure TesselationState where
  patchControlPoints : Nat := 0

/-- State::ViewportState. -/
structure ViewportState where
  viewports : List Viewport := []
  scissors : List Rect2D := []

/-- State::RasterizationState. -/
structure RasterizationState where
  depthClamp : Bool := false
  rasterizerDiscard : Bool := false
  polygonMode : PolygonMode := .fill
  cullMode : CullMode := .back
  frontFace : FrontFace := .clockwise
  depthBias : Bool := false
  lineWidth : Float := 1.0
  depthBiasConstant : Float := 0.0
  depthBiasClamp : Float := 0.0
  depthBiasSlope : Float := 0.0

/-- State::MultisampleState. -/
structure MultisampleState where
  rasterizationSamples : SampleCount := .e1
  sampleShadingEnable : Bool := false
  minSampleShading : Float := 1.0
  sampleMasks : List Nat := []
  alphaToCoverageEnable : Bool := false
  alphaToOneEnable : Bool := false

/-- State::DepthStencilState. -/
structure DepthStencilState where
  depthTestEnable : Bool := false
  depthWriteEnable : Bool := false
  depthCompareOp : CompareOp := .never
  depthBoundsTestEnable : Bool := false
  stencilTestEnable : Bool := false
  front : StencilOpState := {}
  back : StencilOpState := {}
  minDepthBounds : Float := 0.0
  maxDepthBounds : Float := 0.0

/-- State::ColorBlendState. `blendConstants` has no member initializer in the
source (indeterminate for a default-constructed State); the model carries an
arbitrary fixed value and no theorem inspects it. -/
structure ColorBlendState where
  logicOpEnable : Bool := false
  logicOp : LogicOp := .noOp
  attachments : List ColorBlendAttachment := []
  blendConstants : Float × Float × Float × Float := (0.0, 0.0, 0.0, 0.0)

/-- State::PipelineLayout (descriptor-set layouts carried as opaque handles). -/
structure PipelineLayoutState where
  descriptorSetLayouts : List Nat := []
  pushConstantRanges : List PushConstantRange := []

/-- PipelineBuilder::State: the accumulated fixed-function pipeline state. -/
structure State where
  vertexInput : VertexInput := {}
  inputAssembly : InputAssembly := {}
  tessellationState : TesselationState := {}
  dynamicStates : List DynState := []
  viewportState : ViewportState := {}
  rasterizationState : RasterizationState := {}
  multisampleState : MultisampleState := {}
  depthStencilState : DepthStencilState := {}
  colorBlendState : ColorBlendState := {}
  pipelineLayout : PipelineLayoutState := {}

/-! ## PipelineBuilder (src/AppBase/src/pipeline_builder.h / .cpp) -/

/-- PipelineType (graphics or compute). -/
inductive PipelineType
  | graphics
  | compute
  deriving DecidableEq, Repr

/-- The Shader record built by add_shader_stage (pipeline_builder.cpp line 35):
size and bytes of the SPIR-V blob plus the stage kind. -/
structure Shader where
  shaderSize : Nat
  shaderCode : List UInt8
  type : ShaderStageKind
  deriving DecidableEq, Repr

/-- The PipelineBuilder object: declared pipeline kind, render-pass binding,
queued shader blobs (m_ShaderInfo) and created module handles
(m_ShaderModules, a member that persists across build calls). -/
structure PipelineBuilder where
  mPipelineType : PipelineType
  mRenderPass : Nat := 0
  mSubpassIndex : Nat := 0
  mShaderInfo : List Shader := []
  mShaderModules : List Nat := []
  state : State := {}

/-- add_shader_stage (pipeline_builder.cpp lines 20-39): reads the SPIR-V
bytes (file I/O externalized: the bytes are the argument), records a Shader
entry, and returns the builder. The current source performs no
duplicate-stage check: the entry is appended unconditionally. -/
def PipelineBuilder.add_shader_stage (b : PipelineBuilder)
    (shaderCode : List UInt8) (stage : ShaderStageKind) : PipelineBuilder :=
  let shader : Shader :=
    { shaderSize := shaderCode.length, shaderCode := shaderCode, type := stage }
  { b with mShaderInfo := b.mShaderInfo ++ [shader] }

/-- set_primitive_topology (lines 42-46). -/
def PipelineBuilder.set_primitive_topology (b : PipelineBuilder)
    (topology : PrimitiveTopology) : PipelineBuilder :=
  { b with state.inputAssembly.topology := topology }

/-- set_primitive_restart (lines 49-53). -/
def PipelineBuilder.set_primitive_restart (b : PipelineBuilder)
    (enable : Bool) : PipelineBuilder :=
  { b with state.inputAssembly.primitiveRestartEnable := enable }

/-- set_patch_control_points (lines 63-67). -/
def PipelineBuilder.set_patch_control_points (b : PipelineBuilder)
    (points : Nat) : PipelineBuilder :=
  { b with state.tessellationState.patchControlPoints := points }

/-- add_dynamic_state (lines 70-74). -/
def PipelineBuilder.add_dynamic_state (b : PipelineBuilder)
    (dynamicState : DynState) : PipelineBuilder :=
  { b with state.dynamicStates := b.state.dynamicStates ++ [dynamicState] }

/-- add_viewport (lines 77-81). -/
def PipelineBuilder.add_viewport (b : PipelineBuilder)
    (viewport : Viewport) : PipelineBuilder :=
  { b with state.viewportState.viewports := b.state.viewportState.viewports ++ [viewport] }

/-- add_scissor (lines 92-96). -/
def PipelineBuilder.add_scissor (b : PipelineBuilder)
    (scissor : Rect2D) : PipelineBuilder :=
  { b with state.viewportState.scissors := b.state.viewportState.scissors ++ [scissor] }

/-- set_polygon_mode (lines 121-125). -/
def PipelineBuilder.set_polygon_mode (b : PipelineBuilder)
    (mode : PolygonMode) : PipelineBuilder :=
  { b with state.rasterizationState.polygonMode := mode }

/-- set_cull_mode (lines 128-132). -/
def PipelineBuilder.set_cull_mode (b : PipelineBuilder)
    (mode : CullMode) : PipelineBuilder :=
  { b with state.rasterizationState.cullMode := mode }

/-- set_front_face (lines 135-139). -/
def PipelineBuilder.set_front_face (b : PipelineBuilder)
    (face : FrontFace) : PipelineBuilder :=
  { b with state.rasterizationState.frontFace := face }

/-- set_sample_count (lines 191-195). -/
def PipelineBuilder.set_sample_count (b : PipelineBuilder)
    (count : SampleCount) : PipelineBuilder :=
  { b with state.multisampleState.rasterizationSamples := count }

/-- set_render_pass (lines 232-237). -/
def PipelineBuilder.set_render_pass (b : PipelineBuilder)
    (renderPass : Nat) (subpassIndex : Nat) : PipelineBuilder :=
  { b with mRenderPass := renderPass, mSubpassIndex := subpassIndex }

/-- set_depth_test (lines 240-244). -/
def PipelineBuilder.set_depth_test (b : PipelineBuilder)
    (enable : Bool) : PipelineBuilder :=
  { b with state.depthStencilState.depthTestEnable := enable }

/-- set_logic_op (lines 303-308). -/
def PipelineBuilder.set_logic_op (b : PipelineBuilder)
    (enable : Bool) (logicOp : LogicOp) : PipelineBuilder :=
  { b with state.colorBlendState.logicOpEnable := enable,
           state.colorBlendState.logicOp := logicOp }

/-- add_color_blend_attachment (lines 311-315). -/
def PipelineBuilder.add_color_blend_attachment (b : PipelineBuilder)
    (attachment : ColorBlendAttachment) : PipelineBuilder :=
  { b with state.colorBlendState.attachments := b.state.colorBlendState.attachments ++ [attachment] }

/-- add_descriptor_set_layout (lines 325-329). -/
def PipelineBuilder.add_descriptor_set_layout (b : PipelineBuilder)
    (descriptorSetLayout : Nat) : PipelineBuilder :=
  { b with state.pipelineLayout.descriptorSetLayouts :=
      b.state.pipelineLayout.descriptorSetLayouts ++ [descriptorSetLayout] }

/-- add_push_constant_range (lines 332-336). -/
def PipelineBuilder.add_push_constant_range (b : PipelineBuilder)
    (pushConstantRange : PushConstantRange) : PipelineBuilder :=
  { b with state.pipelineLayout.pushConstantRanges :=
      b.state.pipelineLayout.pushConstantRanges ++ [pushConstantRange] }

/-- toggle_dynamic_state (lines 510-525): add the state if enabling and
absent, remove it if disabling and present. -/
def PipelineBuilder.toggle_dynamic_state (b : PipelineBuilder)
    (enable : Bool) (dynamicState : DynState) : PipelineBuilder :=
  let present := b.state.dynamicStates.contains dynamicState
  if enable ∧ ¬ present then
    { b with state.dynamicStates := b.state.dynamicStates ++ [dynamicState] }
  else if ¬ enable ∧ present then
    { b with state.dynamicStates := b.state.dynamicStates.erase dynamicState }
  else
    b

/-- set_dynamic_topology (lines 56-60). -/
def PipelineBuilder.set_dynamic_topology (b : PipelineBuilder)
    (enable : Bool) : PipelineBuilder :=
  b.toggle_dynamic_state enable .primitiveTopology

/-! ## Legacy PipelineBuilder variant (src/AppBase/pipeline_builder.cpp)

The older builder sitting beside the current one in the AppBase folder.  Its
add_shader_stage (lines 20-67) rejects a duplicated stage kind before
loading the file or creating the module. -/

/-- Legacy ShaderStage record: created module handle plus stage kind. -/
structure ShaderStageEntry where
  module : Nat
  type : ShaderStageKind
  deriving DecidableEq, Repr

/-- Error raised by the legacy add_shader_stage on a duplicated kind. -/
inductive LegacyError
  | duplicateShaderStage
  deriving DecidableEq, Repr

/-- The legacy PipelineBuilder object (module handles allocated by the device
are modelled as consecutive naturals). -/
structure LegacyPipelineBuilder where
  mShaderStages : List ShaderStageEntry := []
  nextModuleHandle : Nat := 0

/-- Legacy add_shader_stage (src/AppBase/pipeline_builder.cpp lines 20-67):
throws a duplicate-stage error if a stage of the same kind is already
recorded, otherwise loads the blob, creates the module and appends the
entry. -/
def LegacyPipelineBuilder.add_shader_stage (b : LegacyPipelineBuilder)
    (shaderCode : List UInt8) (stage : ShaderStageKind) :
    Except LegacyError LegacyPipelineBuilder :=
  let _ := shaderCode
  if b.mShaderStages.any (fun s => s.type = stage) then
    .error .duplicateShaderStage
  else
    .ok { mShaderStages := b.mShaderStages ++ [{ module := b.nextModuleHandle, type := stage }],
          nextModuleHandle := b.nextModuleHandle + 1 }

/-! ## build (src/AppBase/src/pipeline_builder.cpp lines 339-507)

Driver interactions are recorded in a trace.  The driver's verdict on the
single pipeline-creation call build makes is an input (`DriverBehavior`).
The fixed-function create-info structs assembled on lines 360-436 are pure
repackaging of `state` handed to that call; the model carries the shader
stage array (the data the claims are about) explicitly in the creation
events and treats the rest of the packaged state as opaque to the driver. -/

/-- vk::PipelineShaderStageCreateInfo as filled on lines 353-357. -/
structure PipelineShaderStageCreateInfo where
  stage : ShaderStageKind
  module : Nat
  pName : String := "main"
  deriving DecidableEq, Repr

/-- vk::ComputePipelineCreateInfo as filled on lines 476-480: a single stage
info plus the layout handle. -/
structure ComputePipelineCreateInfo where
  stage : PipelineShaderStageCreateInfo
  layout : Nat
  deriving DecidableEq, Repr

/-- One driver call made by build, in program order. -/
inductive DriverCall
  | createShaderModule (handle : Nat)
  | createPipelineLayout (handle : Nat)
  | createGraphicsPipeline (stages : List PipelineShaderStageCreateInfo) (layout : Nat)
  | createComputePipeline (info : ComputePipelineCreateInfo)
  | destroyShaderModule (handle : Nat)
  | destroyPipelineLayout (handle : Nat)
  deriving DecidableEq, Repr

/-- Errors build can raise.  `indexOutOfBounds` marks the undefined behavior
of evaluating shaderStages[0] on an empty vector (line 478). -/
inductive BuildError
  | tessellationConfig
  | viewportScissorMismatch
  | graphicsPipelineCreation
  | computePipelineCreation
  | nullPipelineHandle
  | indexOutOfBounds
  deriving DecidableEq, Repr

/-- The driver's response to the pipeline-creation call build makes:
the vk::Result and the returned handle (0 models VK_NULL_HANDLE). -/
structure DriverBehavior where
  pipelineResult : VkResult := .success
  pipelineHandle : Nat := 1
  deriving DecidableEq, Repr

/-- Result of a build call: the driver-call trace, the outcome (pipeline
handle or error), and the builder with its mutated m_ShaderModules member. -/
structure BuildOutput where
  trace : List DriverCall
  result : Except BuildError Nat
  builder : PipelineBuilder

/-- build (lines 339-507), as a function of the builder and the driver
behavior.  Steps in source order:
module-creation loop (343-358); tessellation check (372-375);
viewport/scissor check (379-383); pipeline-layout creation (438-439);
dispatch on the pipeline kind (443-491); module/layout destruction loop
(493-498); null-handle check (500-504). -/
def PipelineBuilder.build (b : PipelineBuilder) (drv : DriverBehavior) : BuildOutput :=
  -- Shader-module creation loop (lines 343-358): one driver call per queued
  -- stage; handles are pushed onto the m_ShaderModules member.
  let startHandle := b.mShaderModules.length
  let created := (List.range b.mShaderInfo.length).map (fun i => startHandle + i)
  let createTrace := created.map DriverCall.createShaderModule
  let shaderStages : List PipelineShaderStageCreateInfo :=
    (b.mShaderInfo.zip created).map (fun p => { stage := p.1.type, module := p.2 })
  let b1 := { b with mShaderModules := b.mShaderModules ++ created }
  let st := b.state
  -- Tessellation validation (lines 372-375).
  if st.tessellationState.patchControlPoints > 0 ∧
      st.inputAssembly.topology ≠ .patchList then
    { trace := createTrace, result := .error .tessellationConfig, builder := b1 }
  -- Viewport/scissor count validation (lines 379-383).
  else if st.viewportState.viewports.length ≠ st.viewportState.scissors.length then
    { trace := createTrace, result := .error .viewportScissorMismatch, builder := b1 }
  else
    -- Pipeline-layout creation (lines 438-439).
    let layoutHandle := startHandle + b.mShaderInfo.length
    let trace1 := createTrace ++ [DriverCall.createPipelineLayout layoutHandle]
    -- Destruction epilogue shared by both branches (lines 493-504).
    let finish : List DriverCall → BuildOutput := fun traceBeforeDestroy =>
      let destroyTrace :=
        b1.mShaderModules.map DriverCall.destroyShaderModule ++
        [DriverCall.destroyPipelineLayout layoutHandle]
      let fullTrace := traceBeforeDestroy ++ destroyTrace
      if drv.pipelineHandle = 0 then
        { trace := fullTrace, result := .error .nullPipelineHandle, builder := b1 }
      else
        { trace := fullTrace, result := .ok drv.pipelineHandle, builder := b1 }
    match b.mPipelineType with
    | .graphics =>
      -- Graphics branch (lines 443-472).
      let trace2 := trace1 ++ [DriverCall.createGraphicsPipeline shaderStages layoutHandle]
      if drv.pipelineResult ≠ .success then
        { trace := trace2, result := .error .graphicsPipelineCreation, builder := b1 }
      else
        finish trace2
    | .compute =>
      -- Compute branch (lines 473-491); shaderStages[0] on line 478.
      match shaderStages.head? with
      | none =>
        { trace := trace1, result := .error .indexOutOfBounds, builder := b1 }
      | some firstStage =>
        let info : ComputePipelineCreateInfo := { stage := firstStage, layout := layoutHandle }
        let trace2 := trace1 ++ [DriverCall.createComputePipeline info]
        if drv.pipelineResult ≠ .success then
          { trace := trace2, result := .error .computePipelineCreation, builder := b1 }
        else
          finish trace2

/-! ## Frame loop: draw_frame (src/05_IndexBuffer/src/main.cpp lines 778-844)

The per-iteration driver/window results are inputs; every call the function
makes is recorded in an action trace.  `error` (main.cpp lines 139-143) logs
and exits the process, so nothing after a fatal action runs. -/

/-- MAX_FRAMES_IN_FLIGHT (main.cpp line 150). -/
def MAX_FRAMES_IN_FLIGHT : Nat := 2

/-- The mutable application state draw_frame reads and writes. -/
structure FrameState where
  currentFrame : Nat := 0
  framebufferResized : Bool := false
  deriving DecidableEq, Repr

/-- Driver results for one draw_frame iteration: res1 (waitForFences),
res2 (acquireNextImageKHR, result and image index) and res3 (presentKHR). -/
structure FrameDriver where
  waitFencesResult : VkResult := .success
  acquireResult : VkResult := .success
  acquireImageIndex : Nat := 0
  presentResult : VkResult := .success
  deriving DecidableEq, Repr

/-- Cause of a fatal `error` call inside draw_frame. -/
inductive FatalCause
  | fenceWaitFailed
  | acquireFailed
  | presentFailed
  deriving DecidableEq, Repr

/-- One observable action of a draw_frame iteration, in program order. -/
inductive FrameAction
  | waitForFences (slot : Nat)
  | acquireNextImage (slot : Nat)
  | recreateSwapchain
  | resetFences (slot : Nat)
  | resetCommandBuffer (slot : Nat)
  | recordCommandBuffer (slot : Nat) (imageIdx : Nat)
  | submit (slot : Nat)
  | presentImage (imageIdx : Nat)
  | fatalError (cause : FatalCause)
  deriving DecidableEq, Repr

/-- draw_frame (main.cpp lines 778-844).  Control flow in source order:
wait on the slot's fence (780-782); acquire (784-793, with early return and
swapchain recreation on out-of-date); fence reset (796); command-buffer
reset and re-record (798-799); submit (801-830); present (832-841, with
recreation on out-of-date/suboptimal/resized); frame-slot advance (843). -/
def draw_frame (s : FrameState) (d : FrameDriver) : FrameState × List FrameAction :=
  let slot := s.currentFrame
  let t0 := [FrameAction.waitForFences slot]
  if d.waitFencesResult ≠ .success then
    (s, t0 ++ [FrameAction.fatalError .fenceWaitFailed])
  else
    let t1 := t0 ++ [FrameAction.acquireNextImage slot]
    if d.acquireResult = .errorOutOfDateKHR then
      -- Recreate swapchain if inadequate, exit draw_frame (lines 787-791).
      (s, t1 ++ [FrameAction.recreateSwapchain])
    else if d.acquireResult ≠ .success ∧ d.acquireResult ≠ .suboptimalKHR then
      (s, t1 ++ [FrameAction.fatalError .acquireFailed])
    else
      let imageIdx := d.acquireImageIndex
      -- Only reset fences if we are submitting work with it (line 796).
      let t2 := t1 ++
        [FrameAction.resetFences slot,
         FrameAction.resetCommandBuffer slot,
         FrameAction.recordCommandBuffer slot imageIdx,
         FrameAction.submit slot,
         FrameAction.presentImage imageIdx]
      if d.presentResult = .errorOutOfDateKHR ∨ d.presentResult = .suboptimalKHR ∨
          s.framebufferResized then
        let s1 : FrameState :=
          { currentFrame := (s.currentFrame + 1) % MAX_FRAMES_IN_FLIGHT,
            framebufferResized := false }
        (s1, t2 ++ [FrameAction.recreateSwapchain])
      else if d.presentResult ≠ .success then
        (s, t2 ++ [FrameAction.fatalError .presentFailed])
      else
        ({ s with currentFrame := (s.currentFrame + 1) % MAX_FRAMES_IN_FLIGHT }, t2)

/-- Run draw_frame over a list of per-iteration driver results, keeping the
final state. -/
def iterate_draw (s : FrameState) (ds : List FrameDriver) : FrameState :=
  ds.foldl (fun st d => (draw_frame st d).1) s

/-- An iteration whose driver results all report success and which observes
no resize (the steady state of the claims). -/
def FrameDriver.allSuccess (d : FrameDriver) : Prop :=
  d.waitFencesResult = .success ∧ d.acquireResult = .success ∧ d.presentResult = .success

instance (d : FrameDriver) : Decidable d.allSuccess := by
  unfold FrameDriver.allSuccess
  infer_instance

/-! ## Swapchain recreation (src/AppBase/src/vulkan_app_base.cpp 288-324;
textually the same algorithm as src/05_IndexBuffer/src/main.cpp 847-881)

The framebuffer size returned by the window system changes between reads, so
the model takes the sequence of read results as a function from read index to
size.  The spin loop has no bound in the source (it blocks while minimized),
so the model runs it on fuel: exhausted fuel models a still-minimized
window in which the loop is still spinning. -/

/-- One observable action of recreate_swapchain, in program order. -/
inductive SwapchainAction
  | getFramebufferSize (width height : Nat)
  | waitEvents
  | deviceWaitIdle
  | destroyFramebuffer (i : Nat)
  | destroyImageView (i : Nat)
  | destroySwapchainKHR
  | createSwapchain
  | createFramebuffers
  deriving DecidableEq, Repr

/-- The swapchain-owning state recreate_swapchain tears down: how many
framebuffers and image views the live swapchain has. -/
structure SwapchainState where
  nFramebuffers : Nat
  nImageViews : Nat
  deriving DecidableEq, Repr

/-- destroy_swapchain (vulkan_app_base.cpp lines 309-324): destroy every
framebuffer, then every image view, then the swapchain itself. -/
def destroy_swapchain (st : SwapchainState) : List SwapchainAction :=
  ((List.range st.nFramebuffers).map SwapchainAction.destroyFramebuffer) ++
  ((List.range st.nImageViews).map SwapchainAction.destroyImageView) ++
  [SwapchainAction.destroySwapchainKHR]

/-- The minimize spin loop (vulkan_app_base.cpp lines 293-297): while the
size last read is zero in either dimension, read the size again and wait for
window events.  `i` is the index of the read whose result is currently held
in width/height; the returned Nat is the index of the first non-zero read.
Exhausted fuel (`none`) models the loop still spinning. -/
def minimize_wait (sizes : Nat → Nat × Nat) :
    Nat → Nat → List SwapchainAction × Option Nat
  | _, 0 => ([], none)
  | i, fuel + 1 =>
    if (sizes i).1 = 0 ∨ (sizes i).2 = 0 then
      let rest := minimize_wait sizes (i + 1) fuel
      (SwapchainAction.getFramebufferSize (sizes (i + 1)).1 (sizes (i + 1)).2 ::
        SwapchainAction.waitEvents :: rest.1,
       rest.2)
    else
      ([], some i)

/-- recreate_swapchain (vulkan_app_base.cpp lines 288-306): read the
framebuffer size, spin while it is zero, then wait for device idle, destroy
the previous swapchain, and recreate swapchain and framebuffers.  Returns
the action trace and the index of the first non-zero size read (`none` when
the fuel ran out with the window still minimized). -/
def recreate_swapchain (st : SwapchainState) (sizes : Nat → Nat × Nat)
    (fuel : Nat) : List SwapchainAction × Option Nat :=
  let firstRead := SwapchainAction.getFramebufferSize (sizes 0).1 (sizes 0).2
  let spin := minimize_wait sizes 0 fuel
  match spin.2 with
  | none => (firstRead :: spin.1, none)
  | some k =>
    (firstRead :: spin.1 ++
      [SwapchainAction.deviceWaitIdle] ++
      destroy_swapchain st ++
      [SwapchainAction.createSwapchain, SwapchainAction.createFramebuffers],
     some k)

/-! ## Shared helper definitions and lemmas for the claim theorems -/

/-- A freshly constructed PipelineBuilder: the constructor
(pipeline_builder.cpp lines 8-12) stores only the pipeline kind. -/
def mkPipelineBuilder (t : PipelineType) : PipelineBuilder :=
  { mPipelineType := t }

/-- The default-initialized State record of a freshly constructed builder. -/
def initState : State := {}

/-- The module-creation prefix every build trace starts with: one
createShaderModule call per queued stage, handles continuing after the
m_ShaderModules member. -/
def module_create_trace (b : PipelineBuilder) : List DriverCall :=
  ((List.range b.mShaderInfo.length).map (fun i => b.mShaderModules.length + i)).map
    DriverCall.createShaderModule

/-- If the tessellation validation fires, build stops with the tessellation
error and its trace is exactly the module-creation loop. -/
theorem build_tessellation_failure (b : PipelineBuilder) (drv : DriverBehavior)
    (hc : b.state.tessellationState.patchControlPoints > 0 ∧
      b.state.inputAssembly.topology ≠ PrimitiveTopology.patchList) :
    (b.build drv).result = .error .tessellationConfig ∧
    (b.build drv).trace = module_create_trace b := by
  simp only [PipelineBuilder.build, module_create_trace]
  rw [if_pos hc]
  exact ⟨rfl, rfl⟩

/-- If the tessellation validation passes but the viewport/scissor counts
differ, build stops with the mismatch error and its trace is exactly the
module-creation loop. -/
theorem build_mismatch_failure (b : PipelineBuilder) (drv : DriverBehavior)
    (hc : ¬ (b.state.tessellationState.patchControlPoints > 0 ∧
      b.state.inputAssembly.topology ≠ PrimitiveTopology.patchList))
    (hm : b.state.viewportState.viewports.length ≠ b.state.viewportState.scissors.length) :
    (b.build drv).result = .error .viewportScissorMismatch ∧
    (b.build drv).trace = module_create_trace b := by
  simp only [PipelineBuilder.build, module_create_trace]
  rw [if_neg hc, if_pos hm]
  exact ⟨rfl, rfl⟩

/-- Nothing in the module-creation prefix is a pipeline-creation or
layout-creation call. -/
theorem module_create_trace_only_modules (b : PipelineBuilder) (c : DriverCall)
    (hmem : c ∈ module_create_trace b) : ∃ h, c = DriverCall.createShaderModule h := by
  simp only [module_create_trace, List.mem_map] at hmem
  obtain ⟨h, _, rfl⟩ := hmem
  exact ⟨h, rfl⟩

/-! ## Concrete inputs used by closed theorems and witnesses -/

/-- Arbitrary SPIR-V blob standing in for a vertex shader file. -/
def vertexShaderBytes : List UInt8 := [3, 2, 35, 7]

/-- Arbitrary SPIR-V blob standing in for a fragment shader file. -/
def fragmentShaderBytes : List UInt8 := [7, 0, 0, 1]

/-- A full-screen 1280x720 viewport. -/
def viewport0 : Viewport :=
  { x := 0.0, y := 0.0, width := 1280.0, height := 720.0, minDepth := 0.0, maxDepth := 1.0 }

/-- The matching 1280x720 scissor rectangle. -/
def scissor0 : Rect2D :=
  { offset := { x := 0, y := 0 }, extent := { width := 1280, height := 720 } }

/-- A driver that rejects the pipeline-creation call. -/
def drvReject : DriverBehavior := { pipelineResult := .errorOther, pipelineHandle := 0 }

/-- Graphics builder with one vertex stage and patch-control-points 4 while
the topology is still the default triangle list: trips the tessellation
validation. -/
def bTess : PipelineBuilder :=
  ((mkPipelineBuilder .graphics).add_shader_stage vertexShaderBytes .vertex).set_patch_control_points 4

/-- Well-configured graphics builder: one vertex stage, one matching
viewport/scissor pair, everything else default. -/
def bGood : PipelineBuilder :=
  (((mkPipelineBuilder .graphics).add_shader_stage vertexShaderBytes .vertex).add_viewport
      viewport0).add_scissor scissor0

/-! ## Claim theorems -/

/-- Claim C10: a freshly constructed PipelineBuilder's state record holds the
documented defaults: polygon mode fill, back-face culling, clockwise front
face, sample count 1, depth test disabled, no color-blend attachments and
logic op disabled, and triangle-list topology. -/
theorem C10_default_state_defaults :
    initState.rasterizationState.polygonMode = PolygonMode.fill ∧
    initState.rasterizationState.cullMode = CullMode.back ∧
    initState.rasterizationState.frontFace = FrontFace.clockwise ∧
    initState.multisampleState.rasterizationSamples = SampleCount.e1 ∧
    initState.depthStencilState.depthTestEnable = false ∧
    initState.colorBlendState.attachments = [] ∧
    initState.colorBlendState.logicOpEnable = false ∧
    initState.inputAssembly.topology = PrimitiveTopology.triangleList :=
  ⟨rfl, rfl, rfl, rfl, rfl, rfl, rfl, rfl⟩

/-- Claim C1 (code defect): the current add_shader_stage
(src/AppBase/src/pipeline_builder.cpp lines 20-39) accepts a second stage of
a kind already present — it appends the duplicate and cannot fail — even
though its own comment says only one stage per type is allowed; the legacy
variant beside it (src/AppBase/pipeline_builder.cpp lines 20-67) rejects the
same call with the duplicate-stage error the claim describes. -/
theorem C1_duplicate_stage_accepted :
    (((mkPipelineBuilder .graphics).add_shader_stage vertexShaderBytes .vertex).add_shader_stage
        fragmentShaderBytes .vertex).mShaderInfo.map Shader.type =
      [ShaderStageKind.vertex, ShaderStageKind.vertex] ∧
    LegacyPipelineBuilder.add_shader_stage
        { mShaderStages := [{ module := 0, type := .vertex }], nextModuleHandle := 1 }
        fragmentShaderBytes .vertex =
      .error .duplicateShaderStage := by
  exact ⟨rfl, rfl⟩

/-- Claim C2 (code defect): on the tessellation-validation failure path the
shader module already created is never destroyed, and on the
driver-rejection failure path neither the created shader module nor the
created pipeline layout is destroyed — the error propagates with the
transient resources still alive. -/
theorem C2_build_failure_leaks_transient_resources :
    ((bTess.build {}).result = .error .tessellationConfig ∧
      (bTess.build {}).trace = [DriverCall.createShaderModule 0]) ∧
    ((bGood.build drvReject).result = .error .graphicsPipelineCreation ∧
      (bGood.build drvReject).trace =
        [DriverCall.createShaderModule 0,
         DriverCall.createPipelineLayout 1,
         DriverCall.createGraphicsPipeline [{ stage := .vertex, module := 0 }] 1]) := by
  exact ⟨⟨rfl, rfl⟩, ⟨rfl, rfl⟩⟩

deriving instance DecidableEq for Except

/-- The module-creation prefix contains no graphics-pipeline creation call. -/
theorem module_create_trace_no_graphics (b : PipelineBuilder)
    (stages : List PipelineShaderStageCreateInfo) (l : Nat) :
    DriverCall.createGraphicsPipeline stages l ∉ module_create_trace b := by
  simp [module_create_trace]

/-- The module-creation prefix contains no compute-pipeline creation call. -/
theorem module_create_trace_no_compute (b : PipelineBuilder)
    (info : ComputePipelineCreateInfo) :
    DriverCall.createComputePipeline info ∉ module_create_trace b := by
  simp [module_create_trace]

/-- The module-creation prefix contains no layout creation call. -/
theorem module_create_trace_no_layout (b : PipelineBuilder) (h : Nat) :
    DriverCall.createPipelineLayout h ∉ module_create_trace b := by
  simp [module_create_trace]

/-- Graphics builder with a vertex and a fragment stage and
patch-control-points 3 while the topology is the default triangle list. -/
def bTess2 : PipelineBuilder :=
  (((mkPipelineBuilder .graphics).add_shader_stage vertexShaderBytes .vertex).add_shader_stage
      fragmentShaderBytes .fragment).set_patch_control_points 3

/-- Claim C4 counterexample: on a builder with two queued stages,
patch-control-points 3 and triangle-list topology, build does fail with the
tessellation error, but only after two shader-module driver calls — not with
zero shader modules created, as the claim states. -/
theorem C4_counterexample_modules_created_before_tessellation_check :
    (bTess2.build {}).result = .error .tessellationConfig ∧
    (bTess2.build {}).trace =
      [DriverCall.createShaderModule 0, DriverCall.createShaderModule 1] ∧
    (bTess2.build {}).trace ≠ [] := by
  refine ⟨rfl, rfl, by decide⟩

/-- Claim C4 (amended): whenever patchControlPoints > 0 and the topology is
not patch-list, build fails with the tessellation-configuration error before
the pipeline-layout and pipeline-creation driver calls — but after the
module-creation loop, so one shader-module driver call per queued stage has
already been made (zero only when no stage was queued). -/
theorem C4_tessellation_misconfig_fails_before_pipeline_creation
    (b : PipelineBuilder) (drv : DriverBehavior)
    (hp : b.state.tessellationState.patchControlPoints > 0)
    (ht : b.state.inputAssembly.topology ≠ PrimitiveTopology.patchList) :
    (b.build drv).result = .error .tessellationConfig ∧
    (b.build drv).trace = module_create_trace b ∧
    (∀ stages l, DriverCall.createGraphicsPipeline stages l ∉ (b.build drv).trace) ∧
    (∀ info, DriverCall.createComputePipeline info ∉ (b.build drv).trace) ∧
    (∀ h, DriverCall.createPipelineLayout h ∉ (b.build drv).trace) := by
  obtain ⟨hr, htr⟩ := build_tessellation_failure b drv ⟨hp, ht⟩
  rw [htr]
  exact ⟨hr, rfl, module_create_trace_no_graphics b,
    module_create_trace_no_compute b, module_create_trace_no_layout b⟩

/-- Claim C4 witness: the amended theorem evaluated on the concrete
misconfigured builder. -/
theorem C4_witness :
    bTess2.state.tessellationState.patchControlPoints > 0 ∧
    bTess2.state.inputAssembly.topology ≠ PrimitiveTopology.patchList ∧
    (bTess2.build {}).result = .error .tessellationConfig ∧
    (∀ h, DriverCall.createPipelineLayout h ∉ (bTess2.build {}).trace) := by
  have hmain := C4_tessellation_misconfig_fails_before_pipeline_creation bTess2 {}
    (by decide) (by decide)
  exact ⟨by decide, by decide, hmain.1, hmain.2.2.2.2⟩

/-- Builder with both a tessellation misconfiguration (patch-control-points 1,
triangle-list topology) and a viewport/scissor count mismatch. -/
def bBoth : PipelineBuilder :=
  ((mkPipelineBuilder .graphics).set_patch_control_points 1).add_viewport viewport0

/-- Claim C6 counterexample: on a builder whose viewport and scissor counts
differ but whose tessellation configuration is also invalid, build fails
with the tessellation error, not the mismatch error the claim requires. -/
theorem C6_counterexample_tessellation_error_precedes_mismatch :
    bBoth.state.viewportState.viewports.length ≠ bBoth.state.viewportState.scissors.length ∧
    (bBoth.build {}).result = .error .tessellationConfig ∧
    (bBoth.build {}).result ≠ .error .viewportScissorMismatch := by
  exact ⟨by decide, rfl, by decide⟩

/-- Claim C6 (amended): whenever the viewport and scissor counts differ,
build fails before the pipeline-creation driver call; the error is the
viewport/scissor mismatch error whenever the tessellation check does not
fire first. -/
theorem C6_viewport_scissor_mismatch_fails_build
    (b : PipelineBuilder) (drv : DriverBehavior)
    (hm : b.state.viewportState.viewports.length ≠ b.state.viewportState.scissors.length) :
    ((b.build drv).result = .error .tessellationConfig ∨
      (b.build drv).result = .error .viewportScissorMismatch) ∧
    (b.build drv).trace = module_create_trace b ∧
    (∀ stages l, DriverCall.createGraphicsPipeline stages l ∉ (b.build drv).trace) ∧
    (∀ info, DriverCall.createComputePipeline info ∉ (b.build drv).trace) ∧
    (¬ (b.state.tessellationState.patchControlPoints > 0 ∧
        b.state.inputAssembly.topology ≠ PrimitiveTopology.patchList) →
      (b.build drv).result = .error .viewportScissorMismatch) := by
  by_cases hc : b.state.tessellationState.patchControlPoints > 0 ∧
      b.state.inputAssembly.topology ≠ PrimitiveTopology.patchList
  · obtain ⟨hr, htr⟩ := build_tessellation_failure b drv hc
    rw [htr]
    exact ⟨Or.inl hr, rfl, module_create_trace_no_graphics b,
      module_create_trace_no_compute b, fun hn => absurd hc hn⟩
  · obtain ⟨hr, htr⟩ := build_mismatch_failure b drv hc hm
    rw [htr]
    exact ⟨Or.inr hr, rfl, module_create_trace_no_graphics b,
      module_create_trace_no_compute b, fun _ => hr⟩

/-- Builder with one viewport and no scissor (and a valid tessellation
configuration). -/
def bMismatch : PipelineBuilder :=
  (mkPipelineBuilder .graphics).add_viewport viewport0

/-- Claim C6 witness: the amended theorem evaluated on the concrete
mismatched builder. -/
theorem C6_witness :
    bMismatch.state.viewportState.viewports.length ≠
      bMismatch.state.viewportState.scissors.length ∧
    (bMismatch.build {}).result = .error .viewportScissorMismatch ∧
    (∀ stages l, DriverCall.createGraphicsPipeline stages l ∉ (bMismatch.build {}).trace) := by
  have hmain := C6_viewport_scissor_mismatch_fails_build bMismatch {} (by decide)
  exact ⟨by decide, hmain.2.2.2.2 (by decide), hmain.2.2.1⟩

/-- The destroyShaderModule event is injective in its handle. -/
theorem destroyShaderModule_injective :
    Function.Injective DriverCall.destroyShaderModule := by
  intro a b hab
  simpa using hab

/-- Counting destroys in a build epilogue: a trace made of a destroy-free
prefix, one destroyShaderModule per recorded handle, and the layout destroy
destroys each recorded handle exactly once. -/
theorem count_destroy_in_trace (pre : List DriverCall) (mods : List Nat)
    (lh h : Nat)
    (hpre : ∀ h2, DriverCall.destroyShaderModule h2 ∉ pre)
    (hnd : mods.Nodup) (hmem : h ∈ mods) :
    ((pre ++ (mods.map DriverCall.destroyShaderModule ++
        [DriverCall.destroyPipelineLayout lh])).count
      (DriverCall.destroyShaderModule h)) = 1 := by
  rw [List.count_append, List.count_append]
  have h1 : pre.count (DriverCall.destroyShaderModule h) = 0 :=
    List.count_eq_zero.mpr (hpre h)
  have h2 : ((mods.map DriverCall.destroyShaderModule).count
      (DriverCall.destroyShaderModule h)) = 1 := by
    rw [List.count_map_of_injective mods DriverCall.destroyShaderModule
      destroyShaderModule_injective h]
    exact List.count_eq_one_of_mem hnd hmem
  have h3 : (([DriverCall.destroyPipelineLayout lh]).count
      (DriverCall.destroyShaderModule h)) = 0 := by simp
  omega

/-- Claim C3 (amended): on every successful build call from a fresh builder,
every shader module created during the call (the builder records one per
queued stage) is destroyed exactly once before returning — but the pipeline
layout is ALSO destroyed on the success path (build returns only the
pipeline handle; no layout ownership is transferred). -/
theorem C3_success_destroys_modules_and_layout
    (b : PipelineBuilder) (drv : DriverBehavior) (p : Nat)
    (hmods : b.mShaderModules = [])
    (hok : (b.build drv).result = .ok p) :
    (b.build drv).builder.mShaderModules.length = b.mShaderInfo.length ∧
    (∀ h ∈ (b.build drv).builder.mShaderModules,
      ((b.build drv).trace.count (DriverCall.destroyShaderModule h)) = 1) ∧
    (∃ lh, DriverCall.destroyPipelineLayout lh ∈ (b.build drv).trace) := by
  revert hok
  simp only [PipelineBuilder.build]
  split
  · intro hok; exact absurd hok (by simp)
  · split
    · intro hok; exact absurd hok (by simp)
    · split
      · -- graphics branch
        split
        · intro hok; exact absurd hok (by simp)
        · split
          · intro hok; exact absurd hok (by simp)
          · intro _
            simp only [hmods, List.nil_append, List.length_nil, Nat.zero_add]
            refine ⟨by simp, ?_, ⟨b.mShaderInfo.length, by simp⟩⟩
            intro h hmem
            exact count_destroy_in_trace _ _ _ _ (by simp) (by simp [List.nodup_range]) hmem
      · -- compute branch
        split
        · intro hok; exact absurd hok (by simp)
        · split
          · intro hok; exact absurd hok (by simp)
          · split
            · intro hok; exact absurd hok (by simp)
            · intro _
              simp only [hmods, List.nil_append, List.length_nil, Nat.zero_add]
              refine ⟨by simp, ?_, ⟨b.mShaderInfo.length, by simp⟩⟩
              intro h hmem
              exact count_destroy_in_trace _ _ _ _ (by simp) (by simp [List.nodup_range]) hmem

/-- Claim C3 counterexample: a concrete successful build whose trace contains
the destroyPipelineLayout call — the layout is destroyed on the success
path, contradicting the claim that it is not. -/
theorem C3_counterexample_layout_destroyed_on_success :
    (bGood.build {}).result = .ok 1 ∧
    DriverCall.destroyPipelineLayout 1 ∈ (bGood.build {}).trace := by
  exact ⟨rfl, by decide⟩

/-- Claim C3 witness: the amended theorem evaluated on the concrete
well-configured builder with an accepting driver. -/
theorem C3_witness :
    bGood.mShaderModules = [] ∧
    (bGood.build {}).result = .ok 1 ∧
    ((∀ h ∈ (bGood.build {}).builder.mShaderModules,
      ((bGood.build {}).trace.count (DriverCall.destroyShaderModule h)) = 1) ∧
     (∃ lh, DriverCall.destroyPipelineLayout lh ∈ (bGood.build {}).trace)) := by
  have hmain := C3_success_destroys_modules_and_layout bGood {} 1 rfl rfl
  exact ⟨rfl, rfl, hmain.2.1, hmain.2.2⟩

/-- Claim C7: a compute-kind builder never reaches the graphics-pipeline
creation call; every compute-pipeline creation call it makes uses only the
first recorded stage; and when exactly one stage was added the access to the
single stage entry is in-bounds (never the out-of-bounds undefined behavior)
and, when the validations pass, the compute-creation call is made. -/
theorem C7_compute_dispatch (b : PipelineBuilder) (drv : DriverBehavior)
    (hk : b.mPipelineType = .compute) :
    (∀ stages l, DriverCall.createGraphicsPipeline stages l ∉ (b.build drv).trace) ∧
    (∀ sh0 rest, b.mShaderInfo = sh0 :: rest →
      ∀ info, DriverCall.createComputePipeline info ∈ (b.build drv).trace →
        info.stage = { stage := sh0.type, module := b.mShaderModules.length }) ∧
    (∀ sh, b.mShaderInfo = [sh] →
      (b.build drv).result ≠ .error .indexOutOfBounds ∧
      (¬ (b.state.tessellationState.patchControlPoints > 0 ∧
          b.state.inputAssembly.topology ≠ PrimitiveTopology.patchList) →
        b.state.viewportState.viewports.length = b.state.viewportState.scissors.length →
        DriverCall.createComputePipeline
          { stage := { stage := sh.type, module := b.mShaderModules.length },
            layout := b.mShaderModules.length + 1 } ∈ (b.build drv).trace)) := by
  refine ⟨?_, ?_, ?_⟩
  · intro stages l hmem
    revert hmem
    simp only [PipelineBuilder.build, hk]
    split
    · simp
    · split
      · simp
      · split
        · simp
        · split
          · simp
          · split
            · simp
            · simp
  · intro sh0 rest hsh0 info hmem
    revert hmem
    simp only [PipelineBuilder.build, hk, hsh0, List.length_cons,
      List.range_succ_eq_map, List.map_cons, List.zip_cons_cons, List.head?_cons]
    split
    · simp
    · split
      · simp
      · split
        · simp
          rintro rfl
          simp
        · split
          · simp
            rintro rfl
            simp
          · simp
            rintro rfl
            simp
  · intro sh hsh
    constructor
    · simp only [PipelineBuilder.build, hk, hsh, List.length_cons, List.length_nil,
        List.range_succ_eq_map, List.range_zero, List.map_cons, List.map_nil,
        List.zip_cons_cons, List.zip_nil_right, List.head?_cons]
      split
      · simp
      · split
        · simp
        · split
          · simp
          · split
            · simp
            · simp
    · intro hcn hvp
      simp only [PipelineBuilder.build, hk, hsh, List.length_cons, List.length_nil,
        List.range_succ_eq_map, List.range_zero, List.map_cons, List.map_nil,
        List.zip_cons_cons, List.zip_nil_right, List.head?_cons]
      rw [if_neg hcn, if_neg (fun hne => hne hvp)]
      split
      · simp
      · split
        · simp
        · simp

/-- Compute builder with exactly one compute stage. -/
def bCompute : PipelineBuilder :=
  (mkPipelineBuilder .compute).add_shader_stage vertexShaderBytes .compute

/-- Claim C7 witness: the theorem evaluated on a concrete one-stage compute
builder with an accepting driver. -/
theorem C7_witness :
    bCompute.mPipelineType = .compute ∧
    (∀ stages l, DriverCall.createGraphicsPipeline stages l ∉ (bCompute.build {}).trace) ∧
    (bCompute.build {}).result ≠ .error .indexOutOfBounds ∧
    DriverCall.createComputePipeline
      { stage := { stage := .compute, module := 0 }, layout := 1 } ∈
      (bCompute.build {}).trace := by
  have hmain := C7_compute_dispatch bCompute {} rfl
  have h3 := hmain.2.2
    { shaderSize := vertexShaderBytes.length, shaderCode := vertexShaderBytes, type := .compute }
    rfl
  exact ⟨rfl, hmain.1, h3.1, h3.2 (by decide) (by decide)⟩

/-- Claim C5: when fence waiting succeeds and image acquisition reports the
swapchain out of date, draw_frame triggers swapchain recreation and returns
immediately: no fence reset, no command-buffer reset or re-record, no
submission, and the frame slot is unchanged.  Moreover, on every iteration,
a fence reset only happens when the iteration goes on to make the submit
call. -/
theorem C5_out_of_date_aborts_frame (s : FrameState) (d : FrameDriver) :
    (d.waitFencesResult = .success → d.acquireResult = .errorOutOfDateKHR →
      (draw_frame s d).2 =
        [FrameAction.waitForFences s.currentFrame,
         FrameAction.acquireNextImage s.currentFrame,
         FrameAction.recreateSwapchain] ∧
      (draw_frame s d).1 = s) ∧
    (∀ slot, FrameAction.resetFences slot ∈ (draw_frame s d).2 →
      FrameAction.submit slot ∈ (draw_frame s d).2) := by
  constructor
  · intro hw ha
    simp [draw_frame, hw, ha]
  · intro slot hmem
    revert hmem
    unfold draw_frame
    split
    · simp
    · split
      · simp
      · split
        · simp
        · split
          · simp
          · split
            · simp
            · simp

/-- Claim C5 witness: the theorem evaluated at a concrete frame state and an
out-of-date acquisition result. -/
theorem C5_witness :
    (draw_frame { currentFrame := 1 } { acquireResult := .errorOutOfDateKHR }).2 =
      [FrameAction.waitForFences 1, FrameAction.acquireNextImage 1,
       FrameAction.recreateSwapchain] ∧
    (draw_frame { currentFrame := 1 } { acquireResult := .errorOutOfDateKHR }).1 =
      { currentFrame := 1 } ∧
    (FrameAction.resetFences 0 ∈
        (draw_frame { currentFrame := 0 } {}).2 →
      FrameAction.submit 0 ∈ (draw_frame { currentFrame := 0 } {}).2) := by
  have h1 := (C5_out_of_date_aborts_frame { currentFrame := 1 }
    { acquireResult := .errorOutOfDateKHR }).1 rfl rfl
  have h2 := (C5_out_of_date_aborts_frame { currentFrame := 0 } {}).2 0
  exact ⟨h1.1, h1.2, h2⟩

/-- One steady-state draw_frame iteration (all driver results successful, no
pending resize) advances the frame slot by one modulo
MAX_FRAMES_IN_FLIGHT and leaves no resize pending. -/
theorem draw_frame_success_step (s : FrameState) (d : FrameDriver)
    (h : d.allSuccess) (hr : s.framebufferResized = false) :
    (draw_frame s d).1 =
      { currentFrame := (s.currentFrame + 1) % MAX_FRAMES_IN_FLIGHT,
        framebufferResized := false } := by
  obtain ⟨hw, ha, hp⟩ := h
  simp [draw_frame, hw, ha, hp, hr]

/-- Iterating steady-state draw_frame keeps the slot at
(initial + iterations) mod MAX_FRAMES_IN_FLIGHT. -/
theorem iterate_draw_success (ds : List FrameDriver) :
    ∀ s : FrameState, (∀ d ∈ ds, d.allSuccess) →
      s.framebufferResized = false → s.currentFrame < MAX_FRAMES_IN_FLIGHT →
      iterate_draw s ds =
        { currentFrame := (s.currentFrame + ds.length) % MAX_FRAMES_IN_FLIGHT,
          framebufferResized := false } := by
  induction ds with
  | nil =>
    intro s _ hr hlt
    cases s with
    | mk c f =>
      simp only [iterate_draw, List.foldl_nil, List.length_nil, Nat.add_zero]
      simp only at hr hlt
      rw [Nat.mod_eq_of_lt hlt, hr]
  | cons d ds ih =>
    intro s hall hr hlt
    have hstep := draw_frame_success_step s d (hall d (by simp)) hr
    have hrest := ih (draw_frame s d).1
      (fun d2 hd2 => hall d2 (by simp [hd2]))
      (by rw [hstep]) (by rw [hstep]; exact Nat.mod_lt _ (by decide))
    calc iterate_draw s (d :: ds)
        = iterate_draw (draw_frame s d).1 ds := by
          simp [iterate_draw]
      _ = { currentFrame := ((draw_frame s d).1.currentFrame + ds.length) %
              MAX_FRAMES_IN_FLIGHT, framebufferResized := false } := hrest
      _ = { currentFrame := (s.currentFrame + (ds.length + 1)) %
              MAX_FRAMES_IN_FLIGHT, framebufferResized := false } := by
          rw [hstep]
          simp only [Nat.mod_add_mod]
          rw [Nat.add_assoc, Nat.add_comm 1 ds.length]

/-- Claim C8: with 2 frames in flight and only successful, resize-free
iterations, the frame slot index after k iterations is k mod 2 — so the
observed slot indices cycle 0,1,0,1,... and always stay below the
frame-in-flight count. -/
theorem C8_frame_slot_cycles (ds : List FrameDriver)
    (hall : ∀ d ∈ ds, d.allSuccess) :
    ∀ k ≤ ds.length,
      (iterate_draw {} (ds.take k)).currentFrame = k % MAX_FRAMES_IN_FLIGHT ∧
      (iterate_draw {} (ds.take k)).currentFrame < MAX_FRAMES_IN_FLIGHT := by
  intro k hk
  have h := iterate_draw_success (ds.take k) {}
    (fun d hd => hall d (List.mem_of_mem_take hd)) rfl (by decide)
  rw [h]
  simp only [List.length_take]
  rw [Nat.min_eq_left hk]
  exact ⟨by simp, Nat.mod_lt _ (by decide)⟩

/-- Claim C8 witness: three successful iterations from slot 0 end at slot
1 = 3 mod 2, below the frame-in-flight count. -/
theorem C8_witness :
    (iterate_draw {} (List.take 3 [{}, {}, {}, {}])).currentFrame =
      3 % MAX_FRAMES_IN_FLIGHT ∧
    (iterate_draw {} (List.take 3 [{}, {}, {}, {}])).currentFrame <
      MAX_FRAMES_IN_FLIGHT := by
  exact C8_frame_slot_cycles [{}, {}, {}, {}] (by decide) 3 (by decide)

/-- Every action emitted by the minimize spin loop is a size read or an
event wait. -/
theorem minimize_wait_spin_actions (sizes : Nat → Nat × Nat) :
    ∀ fuel i, ∀ a ∈ (minimize_wait sizes i fuel).1,
      a = SwapchainAction.waitEvents ∨
        ∃ w h, a = SwapchainAction.getFramebufferSize w h := by
  intro fuel
  induction fuel with
  | zero =>
    intro i a ha
    simp [minimize_wait] at ha
  | succ fuel ih =>
    intro i a ha
    simp only [minimize_wait] at ha
    split at ha
    · rcases List.mem_cons.mp ha with h1 | h1
      · exact Or.inr ⟨_, _, h1⟩
      · rcases List.mem_cons.mp h1 with h2 | h2
        · exact Or.inl h2
        · exact ih (i + 1) a h2
    · simp at ha

/-- If the minimize spin loop exits reporting index k, the k-th size read is
non-zero in both dimensions and every read from the starting index up to
(excluding) k was zero in some dimension. -/
theorem minimize_wait_exit_spec (sizes : Nat → Nat × Nat) :
    ∀ fuel i k, (minimize_wait sizes i fuel).2 = some k →
      ((sizes k).1 ≠ 0 ∧ (sizes k).2 ≠ 0) ∧ i ≤ k ∧
      ∀ j, i ≤ j → j < k → ((sizes j).1 = 0 ∨ (sizes j).2 = 0) := by
  intro fuel
  induction fuel with
  | zero =>
    intro i k h
    simp [minimize_wait] at h
  | succ fuel ih =>
    intro i k h
    simp only [minimize_wait] at h
    split at h
    · rename_i hzero
      simp only at h
      obtain ⟨hnz, hle, hz⟩ := ih (i + 1) k h
      refine ⟨hnz, by omega, ?_⟩
      intro j hij hjk
      by_cases hji : j = i
      · subst hji
        exact hzero
      · exact hz j (by omega) hjk
    · rename_i hnonzero
      simp only [Option.some.injEq] at h
      subst h
      push_neg at hnonzero
      exact ⟨hnonzero, Nat.le_refl i, fun j hij hjk => by omega⟩

/-- Claim C9: while every framebuffer-size read is zero (window minimized),
recreate_swapchain performs no swapchain create, no destroy, and no
device-idle wait; once the first non-zero size is observed (all earlier
reads having been zero), the trace is a read/wait-only prefix followed, in
order, by the device-idle wait, the destruction of the old swapchain
(framebuffers, image views, swapchain), and the re-creation of the
swapchain and framebuffers. -/
theorem C9_recreate_blocks_while_minimized (st : SwapchainState)
    (sizes : Nat → Nat × Nat) (fuel : Nat) :
    ((recreate_swapchain st sizes fuel).2 = none →
      SwapchainAction.createSwapchain ∉ (recreate_swapchain st sizes fuel).1 ∧
      SwapchainAction.destroySwapchainKHR ∉ (recreate_swapchain st sizes fuel).1 ∧
      SwapchainAction.deviceWaitIdle ∉ (recreate_swapchain st sizes fuel).1) ∧
    (∀ k, (recreate_swapchain st sizes fuel).2 = some k →
      ((sizes k).1 ≠ 0 ∧ (sizes k).2 ≠ 0) ∧
      (∀ j < k, (sizes j).1 = 0 ∨ (sizes j).2 = 0) ∧
      ∃ pre, (recreate_swapchain st sizes fuel).1 =
          pre ++ [SwapchainAction.deviceWaitIdle] ++ destroy_swapchain st ++
            [SwapchainAction.createSwapchain, SwapchainAction.createFramebuffers] ∧
        ∀ a ∈ pre, a = SwapchainAction.waitEvents ∨
          ∃ w h, a = SwapchainAction.getFramebufferSize w h) := by
  rcases hspin : (minimize_wait sizes 0 fuel).2 with _ | k
  · constructor
    · intro _
      refine ⟨?_, ?_, ?_⟩ <;>
      · intro hmem
        simp only [recreate_swapchain, hspin] at hmem
        rcases List.mem_cons.mp hmem with h1 | h1
        · exact absurd h1 (by simp)
        · rcases minimize_wait_spin_actions sizes fuel 0 _ h1 with h2 | ⟨w, hh, h2⟩ <;>
            simp at h2
    · intro k hk
      simp only [recreate_swapchain, hspin] at hk
      exact absurd hk (by simp)
  · constructor
    · intro hnone
      simp only [recreate_swapchain, hspin] at hnone
      exact absurd hnone (by simp)
    · intro k2 hk2
      simp only [recreate_swapchain, hspin, Option.some.injEq] at hk2
      subst hk2
      obtain ⟨hnz, _, hz⟩ := minimize_wait_exit_spec sizes fuel 0 k hspin
      refine ⟨hnz, fun j hj => hz j (Nat.zero_le j) hj, ?_⟩
      refine ⟨SwapchainAction.getFramebufferSize (sizes 0).1 (sizes 0).2 ::
        (minimize_wait sizes 0 fuel).1, ?_, ?_⟩
      · simp only [recreate_swapchain, hspin]
      · intro a ha
        rcases List.mem_cons.mp ha with h1 | h1
        · exact Or.inr ⟨_, _, h1⟩
        · exact minimize_wait_spin_actions sizes fuel 0 a h1

/-- Size stream that is zero for the first two reads and 640x480 afterward. -/
def szExample : Nat → Nat × Nat := fun i => if i < 2 then (0, 0) else (640, 480)

/-- Claim C9 witness: the theorem evaluated on a concrete size stream whose
first non-zero read is the third. -/
theorem C9_witness :
    (recreate_swapchain ⟨3, 3⟩ szExample 10).2 = some 2 ∧
    ((szExample 2).1 ≠ 0 ∧ (szExample 2).2 ≠ 0) ∧
    (∀ j < 2, (szExample j).1 = 0 ∨ (szExample j).2 = 0) ∧
    ∃ pre, (recreate_swapchain ⟨3, 3⟩ szExample 10).1 =
        pre ++ [SwapchainAction.deviceWaitIdle] ++ destroy_swapchain ⟨3, 3⟩ ++
          [SwapchainAction.createSwapchain, SwapchainAction.createFramebuffers] ∧
      ∀ a ∈ pre, a = SwapchainAction.waitEvents ∨
        ∃ w h, a = SwapchainAction.getFramebufferSize w h := by
  have h := (C9_recreate_blocks_while_minimized ⟨3, 3⟩ szExample 10).2 2 (by decide)
  exact ⟨by decide, h.1, h.2.1, h.2.2⟩

end VulkanProjects
